import Mathlib

/-
Verification of the WhisperLiveKit result-stabilization pipeline.

Shallow embedding of:
  whisperlivekit/token_deduplicator.py     (TokenDeduplicator)
  whisperlivekit/silence_state_manager.py  (SilenceStateManager)
  whisperlivekit/token_processing_state.py (TokenProcessingState)
  whisperlivekit/basic_server.py           (websocket_endpoint handshake and teardown)

Python floats are modelled as rationals (ℚ); every numeric constant the
claims touch (0.5, 9.5, 10.0, 10.5) is exactly representable in binary
floating point, so the comparisons below coincide with the Python ones.
Mutating methods are modelled as state transformers `State → State × Result`
(or `State → State` when the method returns None).
-/

namespace WhisperLiveKit

/-- Modelled from the spec: `ASRToken` lives in `whisperlivekit/timed_objects.py`,
which is not part of the provided sources.  Per the spec's data model it is an
immutable value `{text: string, start: float seconds, end: float seconds}`
(the optional confidence field is never consulted by the code under
verification and is omitted). -/
structure ASRToken where
  text : String
  start : ℚ
  «end» : ℚ
deriving DecidableEq, Repr

/-- Python list slice `l[-n:]` for a natural `n`.  For `n > 0` it keeps the
last `min n l.length` elements; for `n = 0` the index `-0` is `0`, so the
slice is the whole list. -/
def pySliceLast (n : Nat) (l : List α) : List α :=
  if n = 0 then l else l.drop (l.length - n)

/-- State of `TokenDeduplicator` (token_deduplicator.py, `__init__`). -/
structure TokenDeduplicator where
  token_history : List ASRToken
  history_size : Nat
  similarity_threshold : ℚ
  last_token_time : ℚ
deriving DecidableEq, Repr

namespace TokenDeduplicator

/-- `TokenDeduplicator(history_size, similarity_threshold)`: empty history,
`last_token_time = 0.0`.  The Python defaults are `history_size=50`,
`similarity_threshold=0.9`. -/
def init (history_size : Nat) (similarity_threshold : ℚ) : TokenDeduplicator :=
  { token_history := []
    history_size := history_size
    similarity_threshold := similarity_threshold
    last_token_time := 0 }

/-- The Python default constructor `TokenDeduplicator()`. -/
def initDefault : TokenDeduplicator := init 50 (9 / 10)

/-- `TokenDeduplicator.is_duplicate` (token_deduplicator.py lines 32-58).
Returns False on empty history; otherwise looks at the last 10 history
entries (`self.token_history[-10:]`), and if the token's text occurs among
their texts, reports a duplicate exactly when some entry of that window with
the same text has `abs(hist.start - token.start) < 0.5`.  The method body
never assigns to `self`. -/
def is_duplicate (self : TokenDeduplicator) (token : ASRToken) : Bool :=
  if self.token_history = [] then
    false
  else if token.text ∈ (pySliceLast 10 self.token_history).map ASRToken.text then
    (pySliceLast 10 self.token_history).reverse.any fun hist_token =>
      hist_token.text = token.text ∧ |hist_token.start - token.start| < 1 / 2
  else
    false

/-- `TokenDeduplicator.add_validated_token` (token_deduplicator.py lines
60-72): append, set `last_token_time = token.end`, and when the history
exceeds `history_size` replace it by `self.token_history[-self.history_size:]`. -/
def add_validated_token (self : TokenDeduplicator) (token : ASRToken) :
    TokenDeduplicator :=
  let history := self.token_history ++ [token]
  let trimmed :=
    if history.length > self.history_size then pySliceLast self.history_size history
    else history
  { self with token_history := trimmed, last_token_time := token.«end» }

/-- `TokenDeduplicator.clear_history`: empties the history and resets
`last_token_time` to `0.0`. -/
def clear_history (self : TokenDeduplicator) : TokenDeduplicator :=
  { self with token_history := [], last_token_time := 0 }

end TokenDeduplicator

/-- The operations a client can perform on a `TokenDeduplicator`. -/
inductive DedupOp
  | isDup (token : ASRToken)
  | add (token : ASRToken)
  | clear
deriving DecidableEq, Repr

/-- Effect of one deduplicator operation on the state.  `is_duplicate`
contains no assignment to `self`, so its state effect is the identity. -/
def DedupOp.apply (s : TokenDeduplicator) : DedupOp → TokenDeduplicator
  | DedupOp.isDup _ => s
  | DedupOp.add t => s.add_validated_token t
  | DedupOp.clear => s.clear_history

/-- Run a sequence of deduplicator operations from a given state. -/
def runDedupOps (s : TokenDeduplicator) (ops : List DedupOp) : TokenDeduplicator :=
  ops.foldl DedupOp.apply s

/-- Insert a list of tokens through `add_validated_token`, in order. -/
def addAll (s : TokenDeduplicator) (ts : List ASRToken) : TokenDeduplicator :=
  ts.foldl TokenDeduplicator.add_validated_token s

/-- State of `SilenceStateManager` (silence_state_manager.py, `__init__`). -/
structure SilenceStateManager where
  is_in_silence : Bool
  silence_start_time : Option ℚ
  pending_tokens : List ASRToken
  last_speech_end_time : Option ℚ
deriving DecidableEq, Repr

namespace SilenceStateManager

/-- `SilenceStateManager()`: Speech state, no timestamps, no pending tokens. -/
def init : SilenceStateManager :=
  { is_in_silence := false
    silence_start_time := none
    pending_tokens := []
    last_speech_end_time := none }

/-- `SilenceStateManager.enter_silence` (silence_state_manager.py lines
27-48): no-op returning `[]` when already in silence; otherwise records the
transition, sets `silence_start_time = timestamp`, and returns a copy of
`pending_tokens` after clearing them. -/
def enter_silence (self : SilenceStateManager) (timestamp : ℚ) :
    SilenceStateManager × List ASRToken :=
  if self.is_in_silence then
    (self, [])
  else
    let finalized_tokens := self.pending_tokens
    ({ self with
        is_in_silence := true
        silence_start_time := some timestamp
        pending_tokens := [] },
      finalized_tokens)

/-- `SilenceStateManager.exit_silence`: no-op when already in speech;
otherwise clears `is_in_silence` and `silence_start_time` and records
`last_speech_end_time = timestamp`.  (The locally computed
`silence_duration` is only logged.) -/
def exit_silence (self : SilenceStateManager) (timestamp : ℚ) :
    SilenceStateManager :=
  if !self.is_in_silence then
    self
  else
    { self with
        is_in_silence := false
        last_speech_end_time := some timestamp
        silence_start_time := none }

/-- `SilenceStateManager.should_process_transcription`: true iff not in
silence.  No state effect. -/
def should_process_transcription (self : SilenceStateManager) : Bool :=
  !self.is_in_silence

/-- `SilenceStateManager.add_pending_token`: appends to `pending_tokens`. -/
def add_pending_token (self : SilenceStateManager) (token : ASRToken) :
    SilenceStateManager :=
  { self with pending_tokens := self.pending_tokens ++ [token] }

/-- `SilenceStateManager.get_silence_duration`: `0.0` when
`not self.is_in_silence or not self.silence_start_time` (a Python truthiness
test, so a start time of `0.0` is falsy too), else `time() - start`.  The
wall clock `time()` is passed in as `now`.  No state effect. -/
def get_silence_duration (self : SilenceStateManager) (now : ℚ) : ℚ :=
  match self.silence_start_time with
  | none => 0
  | some start => if !self.is_in_silence || start = 0 then 0 else now - start

/-- `SilenceStateManager.reset_state`: back to the freshly constructed
state. -/
def reset_state (_self : SilenceStateManager) : SilenceStateManager := init

end SilenceStateManager

/-- The operations a client can perform on a `SilenceStateManager`. -/
inductive SilenceOp
  | enterSilence (timestamp : ℚ)
  | exitSilence (timestamp : ℚ)
  | shouldProcess
  | addPending (token : ASRToken)
  | getDuration (now : ℚ)
  | reset
deriving DecidableEq, Repr

/-- Effect of one silence-manager operation on the state; the read-only
operations (`should_process_transcription`, `get_silence_duration`) have no
state effect. -/
def SilenceOp.apply (s : SilenceStateManager) : SilenceOp → SilenceStateManager
  | SilenceOp.enterSilence t => (s.enter_silence t).1
  | SilenceOp.exitSilence t => s.exit_silence t
  | SilenceOp.shouldProcess => s
  | SilenceOp.addPending tok => s.add_pending_token tok
  | SilenceOp.getDuration _ => s
  | SilenceOp.reset => s.reset_state

/-- Run a sequence of silence-manager operations from a given state. -/
def runSilenceOps (s : SilenceStateManager) (ops : List SilenceOp) :
    SilenceStateManager :=
  ops.foldl SilenceOp.apply s

/-- Add a list of tokens through `add_pending_token`, in order. -/
def addAllPending (s : SilenceStateManager) (ts : List ASRToken) :
    SilenceStateManager :=
  ts.foldl SilenceStateManager.add_pending_token s

/-- State of the `TokenProcessingState` dataclass
(token_processing_state.py).  `buffer_validation_state` is an opaque
string-keyed mapping; the code only ever clears it, so its entries are
modelled as key/value pairs of strings. -/
structure TokenProcessingState where
  last_output_time : ℚ
  last_token_id : Option String
  silence_state : SilenceStateManager
  deduplicator : TokenDeduplicator
  buffer_validation_state : List (String × String)
deriving DecidableEq, Repr

namespace TokenProcessingState

/-- The dataclass constructor together with `__post_init__`: every field may
be supplied by the caller; a `None` component is backfilled with a freshly
constructed default (`SilenceStateManager()`, `TokenDeduplicator()`, `{}`). -/
def construct (last_output_time : ℚ) (last_token_id : Option String)
    (silence_state : Option SilenceStateManager)
    (deduplicator : Option TokenDeduplicator)
    (buffer_validation_state : Option (List (String × String))) :
    TokenProcessingState :=
  { last_output_time := last_output_time
    last_token_id := last_token_id
    silence_state := silence_state.getD SilenceStateManager.init
    deduplicator := deduplicator.getD TokenDeduplicator.initDefault
    buffer_validation_state := buffer_validation_state.getD [] }

/-- `TokenProcessingState()` with every dataclass default. -/
def init : TokenProcessingState :=
  construct 0 none none none none

/-- `TokenProcessingState.reset_state` (token_processing_state.py lines
25-41): zeroes the session bookkeeping, resets the silence manager, clears
the deduplicator history via `clear_history`, and clears
`buffer_validation_state`. -/
def reset_state (self : TokenProcessingState) : TokenProcessingState :=
  { self with
      last_output_time := 0
      last_token_id := none
      silence_state := self.silence_state.reset_state
      deduplicator := self.deduplicator.clear_history
      buffer_validation_state := [] }

end TokenProcessingState

/-- A JSON control message as the handshake loop of `websocket_endpoint`
inspects it: only the `type`, `command` and `language` keys are read
(`init_msg.get(...)`); `none` models an absent key. -/
structure JsonMsg where
  type : Option String
  command : Option String
  language : Option String
deriving DecidableEq, Repr

/-- A message the handshake loop sends back to the client. -/
inductive ServerReply
  | configReply (useAudioWorklet : Bool)
deriving DecidableEq, Repr

/-- How the handshake loop of `websocket_endpoint` (basic_server.py lines
90-131) ends. -/
inductive HandshakeOutcome
  | active (selected_lang : String)
  | closed (code : Nat)
  | awaitingMore
deriving DecidableEq, Repr

/-- The `while True` handshake loop of `websocket_endpoint`, as a function of
the incoming JSON messages:  a `{"type":"config"}` message is answered with
the capability reply and the loop continues; a `{"command":"start"}` message
selects `init_msg.get("language", transcription_engine.args.lan)` and breaks
to the active session; any other message closes the socket with code 1003
and returns.  `awaitingMore` stands for the loop still blocked in
`receive_json` when the supplied messages run out. -/
def handshake (defaultLang : String) (useAudioWorklet : Bool) :
    List JsonMsg → List ServerReply × HandshakeOutcome
  | [] => ([], HandshakeOutcome.awaitingMore)
  | init_msg :: rest =>
    if init_msg.type = some "config" then
      (ServerReply.configReply useAudioWorklet
          :: (handshake defaultLang useAudioWorklet rest).1,
        (handshake defaultLang useAudioWorklet rest).2)
    else if init_msg.command = some "start" then
      ([], HandshakeOutcome.active (init_msg.language.getD defaultLang))
    else
      ([], HandshakeOutcome.closed 1003)

/-- True exactly when the handshake entered the Active state, i.e. when the
`AudioProcessor` is constructed and the two session tasks are spawned
(basic_server.py: everything after the `break` is guarded by reaching it). -/
def sessionEntersActive : HandshakeOutcome → Bool
  | HandshakeOutcome.active _ => true
  | _ => false

/-- One step of the `finally` block of `websocket_endpoint` (basic_server.py
lines 187-200). -/
inductive TeardownEvent
  | cleanupProcessor
  | cancelEmitTask
  | awaitEmitTask
deriving DecidableEq, Repr

/-- The teardown sequence run by the `finally` block of `websocket_endpoint`,
in program order: first `await audio_processor.cleanup()` when a processor
was constructed, then — when the emit task exists — `websocket_task.cancel()`
followed by `await websocket_task`. -/
def finallyTeardown (has_audio_processor : Bool) (has_websocket_task : Bool) :
    List TeardownEvent :=
  (if has_audio_processor then [TeardownEvent.cleanupProcessor] else []) ++
    (if has_websocket_task then
      [TeardownEvent.cancelEmitTask, TeardownEvent.awaitEmitTask]
    else [])

/-- How the awaited emit task can have terminated. -/
inductive EmitTermination
  | completed
  | cancelled
  | raised (msg : String)
deriving DecidableEq, Repr

/-- Whether `await websocket_task` inside the `finally` block treats the emit
task's termination as an error: `except asyncio.CancelledError: pass`
swallows cancellation silently, any other exception is logged as an error. -/
def awaitEmitReportsError : EmitTermination → Bool
  | EmitTermination.raised _ => true
  | _ => false

/-! ## Helper lemmas -/

theorem pySliceLast_of_pos {n : Nat} (hn : n ≠ 0) (l : List α) :
    pySliceLast n l = l.drop (l.length - n) := by
  simp [pySliceLast, hn]

/-- `is_duplicate` returns true exactly when one of the last 10 history
entries matches the token's text with a start time within 500 ms. -/
theorem is_duplicate_iff (d : TokenDeduplicator) (token : ASRToken) :
    d.is_duplicate token = true ↔
      ∃ h ∈ pySliceLast 10 d.token_history,
        h.text = token.text ∧ |h.start - token.start| < 1 / 2 := by
  unfold TokenDeduplicator.is_duplicate
  by_cases hempty : d.token_history = []
  · simp [hempty, pySliceLast]
  · rw [if_neg hempty]
    by_cases hmem :
        token.text ∈ (pySliceLast 10 d.token_history).map ASRToken.text
    · rw [if_pos hmem, List.any_eq_true]
      constructor
      · rintro ⟨h, hh, hp⟩
        rw [List.mem_reverse] at hh
        rw [decide_eq_true_eq] at hp
        exact ⟨h, hh, hp⟩
      · rintro ⟨h, hh, hp⟩
        exact ⟨h, List.mem_reverse.mpr hh, decide_eq_true_eq.mpr hp⟩
    · rw [if_neg hmem]
      constructor
      · intro h
        exact absurd h (by simp)
      · rintro ⟨h, hh, ht, _⟩
        exact absurd (List.mem_map.mpr ⟨h, hh, ht⟩) hmem

theorem add_validated_token_history (s : TokenDeduplicator) (t : ASRToken) :
    (s.add_validated_token t).token_history =
      if (s.token_history ++ [t]).length > s.history_size then
        pySliceLast s.history_size (s.token_history ++ [t])
      else s.token_history ++ [t] := rfl

theorem DedupOp_apply_history_size (s : TokenDeduplicator) (op : DedupOp) :
    (DedupOp.apply s op).history_size = s.history_size := by
  cases op <;> rfl

theorem add_validated_token_length_le (s : TokenDeduplicator) (t : ASRToken)
    (h1 : 1 ≤ s.history_size) :
    (s.add_validated_token t).token_history.length ≤ s.history_size := by
  rw [add_validated_token_history]
  split
  · rw [pySliceLast_of_pos (Nat.one_le_iff_ne_zero.mp h1), List.length_drop]
    omega
  · omega

theorem runDedupOps_length_le (ops : List DedupOp) :
    ∀ s : TokenDeduplicator, 1 ≤ s.history_size →
      s.token_history.length ≤ s.history_size →
      (runDedupOps s ops).token_history.length ≤ s.history_size := by
  induction ops with
  | nil => intro s _ h; exact h
  | cons op ops ih =>
    intro s h1 hlen
    have hstep : runDedupOps s (op :: ops) = runDedupOps (DedupOp.apply s op) ops :=
      rfl
    rw [hstep]
    have hsize := DedupOp_apply_history_size s op
    have hlen' : (DedupOp.apply s op).token_history.length
        ≤ (DedupOp.apply s op).history_size := by
      rw [hsize]
      cases op with
      | isDup t => exact hlen
      | add t => exact add_validated_token_length_le s t h1
      | clear => simp [DedupOp.apply, TokenDeduplicator.clear_history]
    have h1' : 1 ≤ (DedupOp.apply s op).history_size := by
      rw [hsize]
      exact h1
    have hrec := ih (DedupOp.apply s op) h1' hlen'
    rwa [hsize] at hrec

theorem addAll_token_history (ts : List ASRToken) :
    ∀ s : TokenDeduplicator, 1 ≤ s.history_size →
      s.token_history.length ≤ s.history_size →
      (addAll s ts).token_history =
        (s.token_history ++ ts).drop
          ((s.token_history ++ ts).length - s.history_size) := by
  induction ts with
  | nil =>
    intro s h1 hlen
    simp only [addAll, List.foldl_nil, List.append_nil]
    have h0 : s.token_history.length - s.history_size = 0 := by omega
    rw [h0, List.drop_zero]
  | cons t ts ih =>
    intro s h1 hlen
    have hstep : addAll s (t :: ts) = addAll (s.add_validated_token t) ts := rfl
    rw [hstep]
    have hsize : (s.add_validated_token t).history_size = s.history_size := rfl
    have hlen' := add_validated_token_length_le s t h1
    have hrec := ih (s.add_validated_token t)
      (by rw [hsize]; exact h1) (by rw [hsize]; exact hlen')
    rw [hrec, hsize, add_validated_token_history]
    by_cases htrim : (s.token_history ++ [t]).length > s.history_size
    · rw [if_pos htrim]
      have hne : s.history_size ≠ 0 := Nat.one_le_iff_ne_zero.mp h1
      rw [pySliceLast_of_pos hne]
      have hlen_eq : s.token_history.length = s.history_size := by
        rw [List.length_append, List.length_singleton] at htrim
        omega
      have hidx1 : (s.token_history ++ [t]).length - s.history_size = 1 := by
        rw [List.length_append, List.length_singleton]
        omega
      rw [hidx1]
      have hd1 : (s.token_history ++ [t]).drop 1 ++ ts
          = ((s.token_history ++ [t]) ++ ts).drop 1 :=
        (List.drop_append_of_le_length (by simp)).symm
      rw [hd1]
      have hidx2 : (((s.token_history ++ [t]) ++ ts).drop 1).length - s.history_size
          = ts.length := by
        simp only [List.length_drop, List.length_append, List.length_singleton,
          hlen_eq]
        omega
      rw [hidx2, List.drop_drop]
      have hassoc : (s.token_history ++ [t]) ++ ts = s.token_history ++ t :: ts := by
        rw [List.append_assoc, List.singleton_append]
      rw [hassoc]
      have hidx3 : (s.token_history ++ t :: ts).length - s.history_size
          = ts.length + 1 := by
        rw [List.length_append, List.length_cons]
        omega
      rw [hidx3, Nat.add_comm]
    · rw [if_neg htrim, List.append_assoc, List.singleton_append]

/-! ## Claim theorems -/

/-- C4: `is_duplicate(token)` is false on an empty history; otherwise it is
true iff some entry among the 10 most recent history entries has the token's
exact text and a start time within 0.5 s of the token's; no field other than
`token_history` (in particular not `similarity_threshold`) influences the
result. -/
theorem is_duplicate_characterization (d : TokenDeduplicator) (token : ASRToken) :
    (d.token_history = [] → d.is_duplicate token = false) ∧
    (d.is_duplicate token = true ↔
      ∃ h ∈ pySliceLast 10 d.token_history,
        h.text = token.text ∧ |h.start - token.start| < 1 / 2) ∧
    ∀ (size : Nat) (thr ltt : ℚ),
      TokenDeduplicator.is_duplicate
        { token_history := d.token_history, history_size := size,
          similarity_threshold := thr, last_token_time := ltt } token
        = d.is_duplicate token :=
  ⟨fun h => by simp [TokenDeduplicator.is_duplicate, h],
   is_duplicate_iff d token,
   fun _ _ _ => rfl⟩

/-- Witness for C4 at a concrete empty-history deduplicator. -/
theorem is_duplicate_characterization_witness :
    TokenDeduplicator.initDefault.is_duplicate ⟨"hello", 10, 0⟩ = false :=
  (is_duplicate_characterization TokenDeduplicator.initDefault
    ⟨"hello", 10, 0⟩).1 rfl

/-- C1 counterexample: `start = 9.5` lies in the claimed half-open interval
`[9.5, 10.5)`, yet after recording ("hello", start 10.0) the code reports
`is_duplicate = false` there, because `abs(10.0 - 9.5) < 0.5` fails at
exactly 0.5. -/
theorem is_duplicate_boundary_start_counterexample :
    ((19 : ℚ) / 2 ≤ 19 / 2 ∧ (19 : ℚ) / 2 < 21 / 2) ∧
    (TokenDeduplicator.initDefault.add_validated_token
        ⟨"hello", 10, 11⟩).is_duplicate ⟨"hello", 19 / 2, 0⟩ = false := by
  refine ⟨⟨le_refl _, by norm_num⟩, ?_⟩
  rw [← Bool.not_eq_true, is_duplicate_iff]
  rw [show (TokenDeduplicator.initDefault.add_validated_token
      ⟨"hello", 10, 11⟩).token_history = [⟨"hello", 10, 11⟩] from rfl]
  rw [show pySliceLast 10 [(⟨"hello", 10, 11⟩ : ASRToken)]
      = [⟨"hello", 10, 11⟩] from rfl]
  rintro ⟨h, hh, -, habs⟩
  rw [List.mem_singleton] at hh
  subst hh
  rw [abs_sub_lt_iff] at habs
  obtain ⟨h1, -⟩ := habs
  norm_num at h1

/-- C1 amended: after `add_validated_token` of ("hello", start 10.0) into a
fresh default deduplicator, `is_duplicate(token2)` for a token2 with text
"hello" is true exactly when `token2.start` lies in the open interval
(9.5, 10.5), and false when `token2.start ≤ 9.5` or `token2.start ≥ 10.5`. -/
theorem is_duplicate_hello_window (e : ℚ) (token2 : ASRToken)
    (htext : token2.text = "hello") :
    (TokenDeduplicator.initDefault.add_validated_token
        ⟨"hello", 10, e⟩).is_duplicate token2 = true ↔
      19 / 2 < token2.start ∧ token2.start < 21 / 2 := by
  have hhist : (TokenDeduplicator.initDefault.add_validated_token
      ⟨"hello", 10, e⟩).token_history = [⟨"hello", 10, e⟩] := rfl
  rw [is_duplicate_iff, hhist]
  rw [show pySliceLast 10 [(⟨"hello", 10, e⟩ : ASRToken)]
      = [⟨"hello", 10, e⟩] from rfl]
  simp only [List.mem_singleton, exists_eq_left, htext, eq_self_iff_true, true_and]
  rw [abs_sub_lt_iff]
  constructor
  · rintro ⟨h1, h2⟩
    constructor <;> linarith
  · rintro ⟨h1, h2⟩
    constructor <;> linarith

/-- Witness for C1's amended theorem: a token at start 10.0 itself is
reported as a duplicate. -/
theorem is_duplicate_hello_window_witness :
    (TokenDeduplicator.initDefault.add_validated_token
        ⟨"hello", 10, 11⟩).is_duplicate ⟨"hello", 10, 0⟩ = true :=
  (is_duplicate_hello_window 11 ⟨"hello", 10, 0⟩ rfl).mpr (by norm_num)

/-- C5 counterexample: with `history_size = 0` a single
`add_validated_token` leaves one token in the history, because Python's trim
`self.token_history[-self.history_size:]` is `history[-0:]`, the whole list
— so `len(token_history) ≤ history_size` does not hold for every
`TokenDeduplicator`. -/
theorem history_size_zero_counterexample :
    ¬ ((TokenDeduplicator.init 0 (9 / 10)).add_validated_token
          ⟨"a", 0, 0⟩).token_history.length
        ≤ (TokenDeduplicator.init 0 (9 / 10)).history_size := by
  decide

/-- C5 amended: for any configured `history_size ≥ 1` (the Python default is
50), `len(token_history) ≤ history_size` holds after every sequence of
operations from a fresh deduplicator, and inserting `history_size + k`
tokens (k ≥ 1) leaves exactly the most recent `history_size` tokens in
insertion order, the oldest `k` evicted first.  (With `history_size = 0` the
bound fails, see the counterexample.) -/
theorem history_bounded_fifo (size : Nat) (thr : ℚ) (hsize : 1 ≤ size) :
    (∀ ops : List DedupOp,
        (runDedupOps (TokenDeduplicator.init size thr) ops).token_history.length
          ≤ size) ∧
    ∀ (ts : List ASRToken) (k : Nat), 1 ≤ k → ts.length = size + k →
      (addAll (TokenDeduplicator.init size thr) ts).token_history = ts.drop k := by
  constructor
  · intro ops
    exact runDedupOps_length_le ops _ hsize (by simp [TokenDeduplicator.init])
  · intro ts k hk hlen
    rw [addAll_token_history ts _ hsize (by simp [TokenDeduplicator.init])]
    simp only [TokenDeduplicator.init, List.nil_append]
    rw [hlen]
    have hidx : size + k - size = k := by omega
    rw [hidx]

/-- Witness for C5's amended theorem: history_size 2, three tokens inserted,
only the last two remain. -/
theorem history_bounded_fifo_witness :
    (runDedupOps (TokenDeduplicator.init 2 (9 / 10))
        [DedupOp.add ⟨"a", 0, 1⟩]).token_history.length ≤ 2 ∧
    (addAll (TokenDeduplicator.init 2 (9 / 10))
        [⟨"a", 0, 1⟩, ⟨"b", 1, 2⟩, ⟨"c", 2, 3⟩]).token_history
      = [⟨"b", 1, 2⟩, ⟨"c", 2, 3⟩] :=
  ⟨(history_bounded_fifo 2 (9 / 10) (by norm_num)).1 [DedupOp.add ⟨"a", 0, 1⟩],
   by
    rw [(history_bounded_fifo 2 (9 / 10) (by norm_num)).2
        [⟨"a", 0, 1⟩, ⟨"b", 1, 2⟩, ⟨"c", 2, 3⟩] 1 (by norm_num) rfl]
    rfl⟩

/-- C6 counterexample: starting from a manager already in Silence (entered
at time 5), calling `enter_silence(7)` leaves `silence_start_time = 5`, so
the claimed "silence_start_time = t1" part fails for states that were
already in Silence before the first call. -/
theorem enter_silence_start_time_counterexample :
    ((SilenceStateManager.init.enter_silence 5).1.enter_silence 7).1.silence_start_time
      ≠ some 7 := by
  decide

/-- C6 amended: `enter_silence` is idempotent — after `enter_silence(t1)`,
a second call `enter_silence(t2)` returns the empty token list and leaves
the state completely unchanged; `silence_start_time` equals `t1` when the
manager was in Speech before the first call (a manager already in Silence
keeps its earlier start time). -/
theorem enter_silence_idempotent (s : SilenceStateManager) (t1 t2 : ℚ) :
    (s.enter_silence t1).1.enter_silence t2 = ((s.enter_silence t1).1, []) ∧
    (s.is_in_silence = false →
      (s.enter_silence t1).1.silence_start_time = some t1) := by
  by_cases h : s.is_in_silence = true
  · refine ⟨by simp [SilenceStateManager.enter_silence, h], ?_⟩
    intro hfalse
    rw [h] at hfalse
    cases hfalse
  · refine ⟨by simp [SilenceStateManager.enter_silence, h], fun _ => ?_⟩
    simp [SilenceStateManager.enter_silence, h]

/-- Witness for C6's amended theorem from a fresh manager. -/
theorem enter_silence_idempotent_witness :
    (SilenceStateManager.init.enter_silence 7).1.enter_silence 9
      = ((SilenceStateManager.init.enter_silence 7).1, []) ∧
    (SilenceStateManager.init.enter_silence 7).1.silence_start_time = some 7 :=
  ⟨(enter_silence_idempotent SilenceStateManager.init 7 9).1,
   (enter_silence_idempotent SilenceStateManager.init 7 9).2 rfl⟩

theorem addAllPending_eq (ts : List ASRToken) :
    ∀ s : SilenceStateManager,
      addAllPending s ts = { s with pending_tokens := s.pending_tokens ++ ts } := by
  induction ts with
  | nil =>
    intro s
    simp [addAllPending]
  | cons t ts ih =>
    intro s
    have hstep : addAllPending s (t :: ts)
        = addAllPending (s.add_pending_token t) ts := rfl
    rw [hstep, ih]
    simp [SilenceStateManager.add_pending_token]

/-- C7: in the Speech state with a freshly flushed pending list, after the
tokens `ts` are added through `add_pending_token`, `enter_silence t` returns
exactly `ts` in insertion order, and immediately afterwards `pending_tokens`
is empty, `is_in_silence` is true and `silence_start_time = t`. -/
theorem enter_silence_flushes_pending (s : SilenceStateManager)
    (ts : List ASRToken) (t : ℚ)
    (hspeech : s.is_in_silence = false) (hflushed : s.pending_tokens = []) :
    (addAllPending s ts).enter_silence t =
      ({ s with
          is_in_silence := true
          silence_start_time := some t
          pending_tokens := [] }, ts) := by
  rw [addAllPending_eq]
  simp [SilenceStateManager.enter_silence, hspeech, hflushed]

/-- Witness for C7 with one pending token. -/
theorem enter_silence_flushes_pending_witness :
    (addAllPending SilenceStateManager.init [⟨"a", 0, 1⟩]).enter_silence 3 =
      ({ is_in_silence := true
         silence_start_time := some 3
         pending_tokens := []
         last_speech_end_time := none }, [⟨"a", 0, 1⟩]) :=
  enter_silence_flushes_pending SilenceStateManager.init [⟨"a", 0, 1⟩] 3 rfl rfl

/-- Invariant of claim C8: the silence start timestamp is recorded exactly
while the manager is in the Silence state. -/
def silenceTimeInvariant (s : SilenceStateManager) : Prop :=
  s.silence_start_time ≠ none ↔ s.is_in_silence = true

theorem silenceTimeInvariant_apply (s : SilenceStateManager) (op : SilenceOp)
    (h : silenceTimeInvariant s) :
    silenceTimeInvariant (SilenceOp.apply s op) := by
  cases op with
  | enterSilence t =>
    by_cases hs : s.is_in_silence = true
    · simpa [SilenceOp.apply, SilenceStateManager.enter_silence, hs] using h
    · simp [SilenceOp.apply, SilenceStateManager.enter_silence, hs,
        silenceTimeInvariant]
  | exitSilence t =>
    by_cases hs : s.is_in_silence = true
    · simp [SilenceOp.apply, SilenceStateManager.exit_silence, hs,
        silenceTimeInvariant]
    · simpa [SilenceOp.apply, SilenceStateManager.exit_silence, hs] using h
  | shouldProcess => exact h
  | addPending tok =>
    simpa [SilenceOp.apply, SilenceStateManager.add_pending_token,
      silenceTimeInvariant] using h
  | getDuration now => exact h
  | reset =>
    simp [SilenceOp.apply, SilenceStateManager.reset_state,
      SilenceStateManager.init, silenceTimeInvariant]

/-- C8: in every state reachable from a fresh `SilenceStateManager` by any
sequence of `enter_silence`, `exit_silence`, `add_pending_token`,
`get_silence_duration`, `should_process_transcription` and `reset_state`
calls, `silence_start_time` is non-null iff `is_in_silence` is true. -/
theorem silence_start_time_iff_in_silence (ops : List SilenceOp) :
    (runSilenceOps SilenceStateManager.init ops).silence_start_time ≠ none ↔
      (runSilenceOps SilenceStateManager.init ops).is_in_silence = true := by
  have base : silenceTimeInvariant SilenceStateManager.init := by
    simp [silenceTimeInvariant, SilenceStateManager.init]
  have main : ∀ (ops : List SilenceOp) (s : SilenceStateManager),
      silenceTimeInvariant s → silenceTimeInvariant (runSilenceOps s ops) := by
    intro ops
    induction ops with
    | nil => intro s h; exact h
    | cons op ops ih => intro s h; exact ih _ (silenceTimeInvariant_apply s op h)
  exact main ops _ base

/-- C3 counterexample: a `TokenProcessingState` constructed with a
non-default deduplicator (`TokenDeduplicator(history_size=10,
similarity_threshold=0.5)`) is not equal to a fresh `TokenProcessingState()`
after `reset_state()`: `clear_history` keeps the configured `history_size`
(10) and `similarity_threshold` (0.5), while a fresh instance carries the
defaults 50 and 0.9. -/
theorem reset_state_fresh_counterexample :
    (TokenProcessingState.construct 0 none none
        (some (TokenDeduplicator.init 10 (1 / 2))) none).reset_state
      ≠ TokenProcessingState.init := by
  intro h
  have hsz := congrArg (fun s => s.deduplicator.history_size) h
  simp only [TokenProcessingState.construct, TokenProcessingState.reset_state,
    TokenProcessingState.init, TokenDeduplicator.clear_history,
    TokenDeduplicator.init, TokenDeduplicator.initDefault, Option.getD] at hsz
  omega

/-- C3 amended: `reset_state()` leaves the instance equal to a freshly
constructed `TokenProcessingState()` in every observable field, except that
the deduplicator keeps its configured `history_size` and
`similarity_threshold`; in particular full equality holds whenever the
deduplicator carries the default configuration. -/
theorem reset_state_eq_fresh_except_config (s : TokenProcessingState) :
    s.reset_state =
      { TokenProcessingState.init with
          deduplicator :=
            { TokenDeduplicator.initDefault with
                history_size := s.deduplicator.history_size
                similarity_threshold := s.deduplicator.similarity_threshold } } :=
  rfl

/-- C2 counterexample: in the `finally` block run with both an
`audio_processor` and a spawned `websocket_task`, awaiting the cancelled
emit task does NOT precede releasing the processor's resources —
`await audio_processor.cleanup()` comes first. -/
theorem emit_cancel_order_counterexample :
    ¬ ((finallyTeardown true true).indexOf TeardownEvent.awaitEmitTask
        < (finallyTeardown true true).indexOf TeardownEvent.cleanupProcessor) := by
  decide

/-- C2 amended: on session teardown the processor's resources are released
first, and only then is the emit task cancelled and its termination awaited;
a cancellation-induced termination is swallowed as expected (only a
non-cancellation exception is reported as an error).  Teardown therefore
does not wait for the emit task before releasing resources. -/
theorem teardown_sequence_order :
    finallyTeardown true true
      = [TeardownEvent.cleanupProcessor, TeardownEvent.cancelEmitTask,
          TeardownEvent.awaitEmitTask] ∧
    finallyTeardown true false = [TeardownEvent.cleanupProcessor] ∧
    finallyTeardown false true
      = [TeardownEvent.cancelEmitTask, TeardownEvent.awaitEmitTask] ∧
    awaitEmitReportsError EmitTermination.cancelled = false ∧
    awaitEmitReportsError EmitTermination.completed = false :=
  ⟨rfl, rfl, rfl, rfl, rfl⟩

theorem handshake_config_probes (defaultLang : String) (uw : Bool) :
    ∀ configs : List JsonMsg, (∀ c ∈ configs, c.type = some "config") →
      ∀ msgs : List JsonMsg,
        handshake defaultLang uw (configs ++ msgs) =
          ((configs.map fun _ => ServerReply.configReply uw)
              ++ (handshake defaultLang uw msgs).1,
            (handshake defaultLang uw msgs).2) := by
  intro configs
  induction configs with
  | nil =>
    intro _ msgs
    simp
  | cons c cs ih =>
    intro hall msgs
    have hc : c.type = some "config" := hall c (List.mem_cons_self c cs)
    have hcs : ∀ x ∈ cs, x.type = some "config" := fun x hx =>
      hall x (List.mem_cons_of_mem c hx)
    rw [List.cons_append, handshake, if_pos hc, ih hcs msgs]
    simp

/-- C9: if, after any number of `{"type":"config"}` probes (each answered
with the capability reply), the next handshake message is neither a config
probe nor a start command, the connection is closed with close code 1003 and
the session never enters the Active state — no processor is constructed and
no tasks are spawned. -/
theorem handshake_protocol_violation (defaultLang : String) (uw : Bool)
    (configs : List JsonMsg) (m : JsonMsg) (rest : List JsonMsg)
    (hconfigs : ∀ c ∈ configs, c.type = some "config")
    (hm1 : m.type ≠ some "config") (hm2 : m.command ≠ some "start") :
    handshake defaultLang uw (configs ++ m :: rest) =
      (configs.map (fun _ => ServerReply.configReply uw),
        HandshakeOutcome.closed 1003) ∧
    sessionEntersActive
      (handshake defaultLang uw (configs ++ m :: rest)).2 = false := by
  have hbase : handshake defaultLang uw (m :: rest)
      = ([], HandshakeOutcome.closed 1003) := by
    rw [handshake, if_neg hm1, if_neg hm2]
  have main : handshake defaultLang uw (configs ++ m :: rest)
      = (configs.map (fun _ => ServerReply.configReply uw),
          HandshakeOutcome.closed 1003) := by
    rw [handshake_config_probes defaultLang uw configs hconfigs (m :: rest), hbase]
    simp
  refine ⟨main, ?_⟩
  rw [main]
  rfl

/-- Witness for C9: one config probe answered, then a bogus command closes
the connection with code 1003. -/
theorem handshake_protocol_violation_witness :
    handshake "auto" false
        ([⟨some "config", none, none⟩] ++ ⟨none, some "bogus", none⟩ :: [])
      = ([ServerReply.configReply false], HandshakeOutcome.closed 1003) :=
  (handshake_protocol_violation "auto" false
      [⟨some "config", none, none⟩] ⟨none, some "bogus", none⟩ []
      (by
        intro c hc
        rw [List.mem_singleton] at hc
        rw [hc])
      (by decide) (by decide)).1

/-- C10: checking a token with `is_duplicate` has no state effect — the
history, the configured size and threshold and `last_token_time` are all
unchanged; only `add_validated_token` records tokens. -/
theorem is_duplicate_no_state_effect (s : TokenDeduplicator) (token : ASRToken) :
    DedupOp.apply s (DedupOp.isDup token) = s ∧
    (DedupOp.apply s (DedupOp.isDup token)).token_history = s.token_history ∧
    (DedupOp.apply s (DedupOp.isDup token)).history_size = s.history_size ∧
    (DedupOp.apply s (DedupOp.isDup token)).similarity_threshold
      = s.similarity_threshold ∧
    (DedupOp.apply s (DedupOp.isDup token)).last_token_time = s.last_token_time :=
  ⟨rfl, rfl, rfl, rfl, rfl⟩

end WhisperLiveKit
